import Mathlib

/-!
Shallow embedding of the dementia-test risk evaluator from
`src/app/page.tsx` (the `calculateRisk` closure of `DementiaRiskCalculator`
and its helpers `getBaselineRisk` and `calculatePostTestProbability`,
together with the `BLOOD_TESTS` catalog).

Modelling choices:
* JavaScript numbers are modelled as exact rationals (`ℚ`); every constant
  in the source is a decimal rational.
* A JavaScript division whose denominator is zero yields a non-real value
  (`Infinity` or `NaN`); this is modelled by `jsDiv` returning `none`, and
  non-real values propagate as `none` through the post-test computation.
  A comparison `NaN > 0.3` is `false` in JavaScript, so `recommendOf`
  maps `none` to `false`.
* Parse failures (`parseFloat`/`parseInt` returning `NaN`) are modelled by
  the corresponding input field being `none`; `parseInt` truncation of a
  decimal numeral toward zero is modelled by `truncQ`.
* `setResult` writes one structured outcome; the outcome is modelled by the
  inductive `RiskResult`: the three error messages, the below-threshold
  short-circuit result (which carries no post-test figures), and the full
  evaluated result.
* `(value * 100).toFixed(1)` is modelled by `formatPercentage`, rounding
  the percentage to one decimal place.
-/

/-- A blood test profile, as in the `BloodTest` type of the source. -/
structure BloodTest where
  name : String
  positiveLR : ℚ
  negativeLR : ℚ
  threshold : ℚ
deriving Repr, DecidableEq

/-- The fixed catalog `BLOOD_TESTS` of the source. -/
def BLOOD_TESTS : List BloodTest :=
  [⟨"Neurofilament Light (NfL)", 5/2, 1/2, 20⟩,
   ⟨"Glial Fibrillary Acidic Protein (GFAP)", 5, 1/10, 15⟩,
   ⟨"Phosphorylated Tau 217 (pTau 217)", 93/10, 46/100, 10⟩,
   ⟨"Amyloid PET Scan", 12, 1/5, 5⟩]

/-- The `Amyloid PET Scan` catalog entry, named for concrete statements. -/
def amyloidTest : BloodTest := ⟨"Amyloid PET Scan", 12, 1/5, 5⟩

/-- The `Phosphorylated Tau 217 (pTau 217)` catalog entry. -/
def pTau217Test : BloodTest := ⟨"Phosphorylated Tau 217 (pTau 217)", 93/10, 46/100, 10⟩

/-- The age-band baseline risk table, `getBaselineRisk` in the source.
The argument is a JavaScript number, hence `ℚ` here, not `ℤ`. -/
def getBaselineRisk (age : ℚ) : ℚ :=
  if age < 60 then 3
  else if 60 ≤ age ∧ age ≤ 65 then 10
  else if 66 ≤ age ∧ age ≤ 70 then 15
  else if 71 ≤ age ∧ age ≤ 75 then 25
  else if 76 ≤ age ∧ age ≤ 80 then 35
  else if 81 ≤ age ∧ age ≤ 85 then 50
  else 65

/-- JavaScript division: a zero denominator yields a non-real value,
modelled as `none`. -/
def jsDiv (a b : ℚ) : Option ℚ :=
  if b = 0 then none else some (a / b)

/-- The odds-transform Bayesian update, `calculatePostTestProbability` in
the source: pre-test odds `p/(1-p)`, multiplied by the likelihood ratio,
converted back to a probability. `none` models the `NaN`/`Infinity`
outcome of a zero denominator. -/
def calculatePostTestProbability (preTestProb likelihoodRatio : ℚ) : Option ℚ :=
  match jsDiv preTestProb (1 - preTestProb) with
  | none => none
  | some preTestOdds =>
      jsDiv (preTestOdds * likelihoodRatio) (1 + preTestOdds * likelihoodRatio)

/-- The probability gap `Math.abs(positiveProb - negativeProb)`; `none`
(a non-real operand) propagates. -/
def gapOf (positiveProb negativeProb : Option ℚ) : Option ℚ :=
  match positiveProb, negativeProb with
  | some p, some n => some |p - n|
  | _, _ => none

/-- The decision rule `probabilityGap > 0.3` of the source; a `NaN` gap
compares `false` in JavaScript, so `none` yields `false`. -/
def recommendOf (gap : Option ℚ) : Bool :=
  match gap with
  | some g => decide ((3 : ℚ)/10 < g)
  | none => false

/-- Truncation toward zero, as `parseInt` acts on a decimal numeral. -/
def truncQ (q : ℚ) : ℤ :=
  if 0 ≤ q then ⌊q⌋ else ⌈q⌉

/-- The display rounding `(value * 100).toFixed(1)` of the source, as the
rational with one decimal place that the formatted string denotes. -/
def formatPercentage (value : ℚ) : ℚ :=
  (round (value * 100 * 10) : ℚ) / 10

/-- The evaluator inputs after parsing: `none` models a field whose
`parseFloat`/`parseInt` produced `NaN`. -/
structure AssessmentInput where
  clinicianProbabilityPercent : Option ℚ
  patientAge : Option ℚ
  selectedTestName : String
deriving Repr, DecidableEq

/-- The structured outcome written by `setResult`: an error message, the
below-threshold short-circuit (no post-test figures), or the fully
evaluated result with its recommendation flag. -/
inductive RiskResult where
  | error (message : String)
  | belowThreshold (patientAge : ℤ) (baselineRisk doctorRisk adjustedRisk : ℚ)
      (test : BloodTest)
  | evaluated (patientAge : ℤ) (baselineRisk doctorRisk adjustedRisk : ℚ)
      (test : BloodTest) (positiveProb negativeProb probabilityGap : Option ℚ)
      (recommended : Bool)
deriving Repr, DecidableEq

/-- The first error message of the source. -/
def invalidNumbersMessage : String := "Please enter valid numbers for both fields."

/-- The second error message of the source. -/
def noTestMessage : String := "Please select a dementia test to proceed."

/-- The third error message of the source. -/
def testNotFoundMessage : String := "Error: Selected test not found."

/-- The catalog lookup `BLOOD_TESTS.find(t => t.name === selectedTest)`. -/
def findTest (selectedTest : String) : Option BloodTest :=
  BLOOD_TESTS.find? (fun t => t.name == selectedTest)

/-- The evaluator `calculateRisk` of the source, in its exact order:
numeric-parse check, test-selection check, baseline lookup and max
adjustment, catalog lookup, threshold short-circuit, post-test
computation and the gap decision rule. -/
def calculateRisk (input : AssessmentInput) : RiskResult :=
  match input.clinicianProbabilityPercent, input.patientAge with
  | some probPercent, some rawAge =>
    let risk : ℚ := probPercent / 100
    let patientAge : ℤ := truncQ rawAge
    if input.selectedTestName = "" then
      RiskResult.error noTestMessage
    else
      let baselineRisk : ℚ := getBaselineRisk (patientAge : ℚ) / 100
      let adjustedRisk : ℚ := max risk baselineRisk
      match findTest input.selectedTestName with
      | none => RiskResult.error testNotFoundMessage
      | some test =>
        if adjustedRisk * 100 < test.threshold then
          RiskResult.belowThreshold patientAge baselineRisk risk adjustedRisk test
        else
          let positiveProb := calculatePostTestProbability adjustedRisk test.positiveLR
          let negativeProb := calculatePostTestProbability adjustedRisk test.negativeLR
          RiskResult.evaluated patientAge baselineRisk risk adjustedRisk test
            positiveProb negativeProb (gapOf positiveProb negativeProb)
            (recommendOf (gapOf positiveProb negativeProb))
  | _, _ => RiskResult.error invalidNumbersMessage

/-- The adjusted pre-test probability computed for probability input `p`
(in percent) and raw age input `a`, as a decimal. -/
def adjustedRiskOf (p a : ℚ) : ℚ :=
  max (p / 100) (getBaselineRisk ((truncQ a : ℤ) : ℚ) / 100)

lemma calculateRisk_none_left (ag : Option ℚ) (nm : String) :
    calculateRisk ⟨none, ag, nm⟩ = RiskResult.error invalidNumbersMessage := by
  cases ag <;> simp [calculateRisk]

lemma calculateRisk_none_right (cp : Option ℚ) (nm : String) :
    calculateRisk ⟨cp, none, nm⟩ = RiskResult.error invalidNumbersMessage := by
  cases cp <;> simp [calculateRisk]

lemma calculateRisk_noTest (p a : ℚ) :
    calculateRisk ⟨some p, some a, ""⟩ = RiskResult.error noTestMessage := by
  simp [calculateRisk]

lemma calculateRisk_notFound (p a : ℚ) (nm : String) (hnm : ¬ nm = "")
    (hfind : findTest nm = none) :
    calculateRisk ⟨some p, some a, nm⟩ = RiskResult.error testNotFoundMessage := by
  simp [calculateRisk, hnm, hfind]

lemma calculateRisk_below (p a : ℚ) (nm : String) (test : BloodTest)
    (hnm : ¬ nm = "") (hfind : findTest nm = some test)
    (hth : adjustedRiskOf p a * 100 < test.threshold) :
    calculateRisk ⟨some p, some a, nm⟩ =
      RiskResult.belowThreshold (truncQ a)
        (getBaselineRisk ((truncQ a : ℤ) : ℚ) / 100) (p / 100)
        (adjustedRiskOf p a) test := by
  rw [adjustedRiskOf] at hth
  simp [calculateRisk, hnm, hfind, hth, adjustedRiskOf]

lemma calculateRisk_evaluated (p a : ℚ) (nm : String) (test : BloodTest)
    (hnm : ¬ nm = "") (hfind : findTest nm = some test)
    (hth : ¬ adjustedRiskOf p a * 100 < test.threshold) :
    calculateRisk ⟨some p, some a, nm⟩ =
      RiskResult.evaluated (truncQ a)
        (getBaselineRisk ((truncQ a : ℤ) : ℚ) / 100) (p / 100)
        (adjustedRiskOf p a) test
        (calculatePostTestProbability (adjustedRiskOf p a) test.positiveLR)
        (calculatePostTestProbability (adjustedRiskOf p a) test.negativeLR)
        (gapOf (calculatePostTestProbability (adjustedRiskOf p a) test.positiveLR)
          (calculatePostTestProbability (adjustedRiskOf p a) test.negativeLR))
        (recommendOf
          (gapOf (calculatePostTestProbability (adjustedRiskOf p a) test.positiveLR)
            (calculatePostTestProbability (adjustedRiskOf p a) test.negativeLR))) := by
  rw [adjustedRiskOf] at hth
  simp [calculateRisk, hnm, hfind, hth, adjustedRiskOf]

lemma findTest_nfl :
    findTest "Neurofilament Light (NfL)" = some ⟨"Neurofilament Light (NfL)", 5/2, 1/2, 20⟩ := by
  simp [findTest, BLOOD_TESTS, List.find?]

lemma findTest_pTau : findTest "Phosphorylated Tau 217 (pTau 217)" = some pTau217Test := by
  simp [findTest, BLOOD_TESTS, List.find?, pTau217Test]

lemma findTest_amyloid : findTest "Amyloid PET Scan" = some amyloidTest := by
  simp [findTest, BLOOD_TESTS, List.find?, amyloidTest]

lemma findTest_empty : findTest "" = none := by
  simp [findTest, BLOOD_TESTS, List.find?]

lemma findTest_ne_empty (nm : String) (t : BloodTest) (h : findTest nm = some t) :
    ¬ nm = "" := by
  intro he
  rw [he, findTest_empty] at h
  cases h

lemma calcRisk_pTau_50_70 :
    calculateRisk ⟨some 50, some 70, "Phosphorylated Tau 217 (pTau 217)"⟩ =
    RiskResult.evaluated 70 (3/20) (1/2) (1/2) pTau217Test
      (some (93/103)) (some (23/73)) (some (4420/7519)) true := by
  have hadj : adjustedRiskOf 50 70 = 1/2 := by
    norm_num [adjustedRiskOf, truncQ, getBaselineRisk]
  have hpp : calculatePostTestProbability (1/2) ((93:ℚ)/10) = some (93/103) := by
    norm_num [calculatePostTestProbability, jsDiv]
  have hnp : calculatePostTestProbability (1/2) ((23:ℚ)/50) = some (23/73) := by
    norm_num [calculatePostTestProbability, jsDiv]
  have habs : |(4420:ℚ)/7519| = 4420/7519 := abs_of_pos (by norm_num)
  rw [calculateRisk_evaluated 50 70 _ pTau217Test (by simp) findTest_pTau
    (by rw [hadj]; norm_num [pTau217Test])]
  norm_num [hadj, truncQ, getBaselineRisk, pTau217Test, hpp, hnp, gapOf, recommendOf, habs]

lemma calcRisk_amyloid_5_50 :
    calculateRisk ⟨some 5, some 50, "Amyloid PET Scan"⟩ =
    RiskResult.evaluated 50 (3/100) (1/20) (1/20) amyloidTest
      (some (12/31)) (some (1/96)) (some (1121/2976)) true := by
  have hadj : adjustedRiskOf 5 50 = 1/20 := by
    norm_num [adjustedRiskOf, truncQ, getBaselineRisk]
  have hpp : calculatePostTestProbability (1/20) (12:ℚ) = some (12/31) := by
    norm_num [calculatePostTestProbability, jsDiv]
  have hnp : calculatePostTestProbability (1/20) ((1:ℚ)/5) = some (1/96) := by
    norm_num [calculatePostTestProbability, jsDiv]
  have habs : |(1121:ℚ)/2976| = 1121/2976 := abs_of_pos (by norm_num)
  rw [calculateRisk_evaluated 5 50 _ amyloidTest (by simp) findTest_amyloid
    (by rw [hadj]; norm_num [amyloidTest])]
  norm_num [hadj, truncQ, getBaselineRisk, amyloidTest, hpp, hnp, gapOf, recommendOf, habs]

lemma calcRisk_amyloid_100_50 :
    calculateRisk ⟨some 100, some 50, "Amyloid PET Scan"⟩ =
    RiskResult.evaluated 50 (3/100) 1 1 amyloidTest none none none false := by
  have hadj : adjustedRiskOf 100 50 = 1 := by
    norm_num [adjustedRiskOf, truncQ, getBaselineRisk]
  have hpp : calculatePostTestProbability 1 (12:ℚ) = none := by
    norm_num [calculatePostTestProbability, jsDiv]
  have hnp : calculatePostTestProbability 1 ((1:ℚ)/5) = none := by
    norm_num [calculatePostTestProbability, jsDiv]
  rw [calculateRisk_evaluated 100 50 _ amyloidTest (by simp) findTest_amyloid
    (by rw [hadj]; norm_num [amyloidTest])]
  norm_num [hadj, truncQ, getBaselineRisk, amyloidTest, hpp, hnp, gapOf, recommendOf]

lemma calcRisk_amyloid_150_50 :
    calculateRisk ⟨some 150, some 50, "Amyloid PET Scan"⟩ =
    RiskResult.evaluated 50 (3/100) (3/2) (3/2) amyloidTest
      (some (36/35)) (some (-(3/2))) (some (177/70)) true := by
  have hadj : adjustedRiskOf 150 50 = 3/2 := by
    norm_num [adjustedRiskOf, truncQ, getBaselineRisk]
  have hpp : calculatePostTestProbability (3/2) (12:ℚ) = some (36/35) := by
    norm_num [calculatePostTestProbability, jsDiv]
  have hnp : calculatePostTestProbability (3/2) ((1:ℚ)/5) = some (-(3/2)) := by
    norm_num [calculatePostTestProbability, jsDiv]
  have habs : |(177:ℚ)/70| = 177/70 := abs_of_pos (by norm_num)
  rw [calculateRisk_evaluated 150 50 _ amyloidTest (by simp) findTest_amyloid
    (by rw [hadj]; norm_num [amyloidTest])]
  norm_num [hadj, truncQ, getBaselineRisk, amyloidTest, hpp, hnp, gapOf, recommendOf, habs]

lemma calcRisk_amyloid_50_659 :
    calculateRisk ⟨some 50, some (659/10), "Amyloid PET Scan"⟩ =
    RiskResult.evaluated 65 (1/10) (1/2) (1/2) amyloidTest
      (some (12/13)) (some (1/6)) (some (59/78)) true := by
  have htr : truncQ ((659:ℚ)/10) = 65 := by
    norm_num [truncQ]
  have hadj : adjustedRiskOf 50 (659/10) = 1/2 := by
    norm_num [adjustedRiskOf, htr, getBaselineRisk]
  have hpp : calculatePostTestProbability (1/2) (12:ℚ) = some (12/13) := by
    norm_num [calculatePostTestProbability, jsDiv]
  have hnp : calculatePostTestProbability (1/2) ((1:ℚ)/5) = some (1/6) := by
    norm_num [calculatePostTestProbability, jsDiv]
  have habs : |(59:ℚ)/78| = 59/78 := abs_of_pos (by norm_num)
  rw [calculateRisk_evaluated 50 (659/10) _ amyloidTest (by simp) findTest_amyloid
    (by rw [hadj]; norm_num [amyloidTest])]
  norm_num [hadj, htr, getBaselineRisk, amyloidTest, hpp, hnp, gapOf, recommendOf, habs]

lemma getBaselineRisk_band1 (a : ℤ) (h : a < 60) : getBaselineRisk (a : ℚ) = 3 := by
  have c1 : ((a : ℚ) < 60) := by exact_mod_cast h
  unfold getBaselineRisk
  rw [if_pos c1]

lemma getBaselineRisk_band2 (a : ℤ) (h1 : 60 ≤ a) (h2 : a ≤ 65) :
    getBaselineRisk (a : ℚ) = 10 := by
  have c1 : ¬ ((a : ℚ) < 60) := by
    have : ¬ (a < 60) := by omega
    exact_mod_cast this
  have c2 : (60 : ℚ) ≤ (a : ℚ) ∧ (a : ℚ) ≤ 65 :=
    ⟨by exact_mod_cast h1, by exact_mod_cast h2⟩
  unfold getBaselineRisk
  rw [if_neg c1, if_pos c2]

lemma getBaselineRisk_band3 (a : ℤ) (h1 : 66 ≤ a) (h2 : a ≤ 70) :
    getBaselineRisk (a : ℚ) = 15 := by
  have c1 : ¬ ((a : ℚ) < 60) := by
    have : ¬ (a < 60) := by omega
    exact_mod_cast this
  have c2 : ¬ ((60 : ℚ) ≤ (a : ℚ) ∧ (a : ℚ) ≤ 65) := by
    rintro ⟨-, hb⟩
    have : a ≤ 65 := by exact_mod_cast hb
    omega
  have c3 : (66 : ℚ) ≤ (a : ℚ) ∧ (a : ℚ) ≤ 70 :=
    ⟨by exact_mod_cast h1, by exact_mod_cast h2⟩
  unfold getBaselineRisk
  rw [if_neg c1, if_neg c2, if_pos c3]

lemma getBaselineRisk_band4 (a : ℤ) (h1 : 71 ≤ a) (h2 : a ≤ 75) :
    getBaselineRisk (a : ℚ) = 25 := by
  have c1 : ¬ ((a : ℚ) < 60) := by
    have : ¬ (a < 60) := by omega
    exact_mod_cast this
  have c2 : ¬ ((60 : ℚ) ≤ (a : ℚ) ∧ (a : ℚ) ≤ 65) := by
    rintro ⟨-, hb⟩
    have : a ≤ 65 := by exact_mod_cast hb
    omega
  have c3 : ¬ ((66 : ℚ) ≤ (a : ℚ) ∧ (a : ℚ) ≤ 70) := by
    rintro ⟨-, hb⟩
    have : a ≤ 70 := by exact_mod_cast hb
    omega
  have c4 : (71 : ℚ) ≤ (a : ℚ) ∧ (a : ℚ) ≤ 75 :=
    ⟨by exact_mod_cast h1, by exact_mod_cast h2⟩
  unfold getBaselineRisk
  rw [if_neg c1, if_neg c2, if_neg c3, if_pos c4]

lemma getBaselineRisk_band5 (a : ℤ) (h1 : 76 ≤ a) (h2 : a ≤ 80) :
    getBaselineRisk (a : ℚ) = 35 := by
  have c1 : ¬ ((a : ℚ) < 60) := by
    have : ¬ (a < 60) := by omega
    exact_mod_cast this
  have c2 : ¬ ((60 : ℚ) ≤ (a : ℚ) ∧ (a : ℚ) ≤ 65) := by
    rintro ⟨-, hb⟩
    have : a ≤ 65 := by exact_mod_cast hb
    omega
  have c3 : ¬ ((66 : ℚ) ≤ (a : ℚ) ∧ (a : ℚ) ≤ 70) := by
    rintro ⟨-, hb⟩
    have : a ≤ 70 := by exact_mod_cast hb
    omega
  have c4 : ¬ ((71 : ℚ) ≤ (a : ℚ) ∧ (a : ℚ) ≤ 75) := by
    rintro ⟨-, hb⟩
    have : a ≤ 75 := by exact_mod_cast hb
    omega
  have c5 : (76 : ℚ) ≤ (a : ℚ) ∧ (a : ℚ) ≤ 80 :=
    ⟨by exact_mod_cast h1, by exact_mod_cast h2⟩
  unfold getBaselineRisk
  rw [if_neg c1, if_neg c2, if_neg c3, if_neg c4, if_pos c5]

lemma getBaselineRisk_band6 (a : ℤ) (h1 : 81 ≤ a) (h2 : a ≤ 85) :
    getBaselineRisk (a : ℚ) = 50 := by
  have c1 : ¬ ((a : ℚ) < 60) := by
    have : ¬ (a < 60) := by omega
    exact_mod_cast this
  have c2 : ¬ ((60 : ℚ) ≤ (a : ℚ) ∧ (a : ℚ) ≤ 65) := by
    rintro ⟨-, hb⟩
    have : a ≤ 65 := by exact_mod_cast hb
    omega
  have c3 : ¬ ((66 : ℚ) ≤ (a : ℚ) ∧ (a : ℚ) ≤ 70) := by
    rintro ⟨-, hb⟩
    have : a ≤ 70 := by exact_mod_cast hb
    omega
  have c4 : ¬ ((71 : ℚ) ≤ (a : ℚ) ∧ (a : ℚ) ≤ 75) := by
    rintro ⟨-, hb⟩
    have : a ≤ 75 := by exact_mod_cast hb
    omega
  have c5 : ¬ ((76 : ℚ) ≤ (a : ℚ) ∧ (a : ℚ) ≤ 80) := by
    rintro ⟨-, hb⟩
    have : a ≤ 80 := by exact_mod_cast hb
    omega
  have c6 : (81 : ℚ) ≤ (a : ℚ) ∧ (a : ℚ) ≤ 85 :=
    ⟨by exact_mod_cast h1, by exact_mod_cast h2⟩
  unfold getBaselineRisk
  rw [if_neg c1, if_neg c2, if_neg c3, if_neg c4, if_neg c5, if_pos c6]

lemma getBaselineRisk_band7 (a : ℤ) (h : 86 ≤ a) : getBaselineRisk (a : ℚ) = 65 := by
  have c1 : ¬ ((a : ℚ) < 60) := by
    have : ¬ (a < 60) := by omega
    exact_mod_cast this
  have c2 : ¬ ((60 : ℚ) ≤ (a : ℚ) ∧ (a : ℚ) ≤ 65) := by
    rintro ⟨-, hb⟩
    have : a ≤ 65 := by exact_mod_cast hb
    omega
  have c3 : ¬ ((66 : ℚ) ≤ (a : ℚ) ∧ (a : ℚ) ≤ 70) := by
    rintro ⟨-, hb⟩
    have : a ≤ 70 := by exact_mod_cast hb
    omega
  have c4 : ¬ ((71 : ℚ) ≤ (a : ℚ) ∧ (a : ℚ) ≤ 75) := by
    rintro ⟨-, hb⟩
    have : a ≤ 75 := by exact_mod_cast hb
    omega
  have c5 : ¬ ((76 : ℚ) ≤ (a : ℚ) ∧ (a : ℚ) ≤ 80) := by
    rintro ⟨-, hb⟩
    have : a ≤ 80 := by exact_mod_cast hb
    omega
  have c6 : ¬ ((81 : ℚ) ≤ (a : ℚ) ∧ (a : ℚ) ≤ 85) := by
    rintro ⟨-, hb⟩
    have : a ≤ 85 := by exact_mod_cast hb
    omega
  unfold getBaselineRisk
  rw [if_neg c1, if_neg c2, if_neg c3, if_neg c4, if_neg c5, if_neg c6]

lemma getBaselineRisk_int_cases (a : ℤ) :
    (a < 60 ∧ getBaselineRisk (a : ℚ) = 3) ∨
    (60 ≤ a ∧ a ≤ 65 ∧ getBaselineRisk (a : ℚ) = 10) ∨
    (66 ≤ a ∧ a ≤ 70 ∧ getBaselineRisk (a : ℚ) = 15) ∨
    (71 ≤ a ∧ a ≤ 75 ∧ getBaselineRisk (a : ℚ) = 25) ∨
    (76 ≤ a ∧ a ≤ 80 ∧ getBaselineRisk (a : ℚ) = 35) ∨
    (81 ≤ a ∧ a ≤ 85 ∧ getBaselineRisk (a : ℚ) = 50) ∨
    (86 ≤ a ∧ getBaselineRisk (a : ℚ) = 65) := by
  by_cases h1 : a < 60
  · exact Or.inl ⟨h1, getBaselineRisk_band1 a h1⟩
  by_cases h2 : a ≤ 65
  · exact Or.inr (Or.inl ⟨by omega, h2, getBaselineRisk_band2 a (by omega) h2⟩)
  by_cases h3 : a ≤ 70
  · exact Or.inr (Or.inr (Or.inl ⟨by omega, h3, getBaselineRisk_band3 a (by omega) h3⟩))
  by_cases h4 : a ≤ 75
  · exact Or.inr (Or.inr (Or.inr (Or.inl ⟨by omega, h4, getBaselineRisk_band4 a (by omega) h4⟩)))
  by_cases h5 : a ≤ 80
  · exact Or.inr (Or.inr (Or.inr (Or.inr (Or.inl
      ⟨by omega, h5, getBaselineRisk_band5 a (by omega) h5⟩))))
  by_cases h6 : a ≤ 85
  · exact Or.inr (Or.inr (Or.inr (Or.inr (Or.inr (Or.inl
      ⟨by omega, h6, getBaselineRisk_band6 a (by omega) h6⟩)))))
  · exact Or.inr (Or.inr (Or.inr (Or.inr (Or.inr (Or.inr
      ⟨by omega, getBaselineRisk_band7 a (by omega)⟩)))))

lemma getBaselineRisk_mono_int (a b : ℤ) (hab : a ≤ b) :
    getBaselineRisk (a : ℚ) ≤ getBaselineRisk (b : ℚ) := by
  rcases getBaselineRisk_int_cases a with
    ⟨h, hv⟩ | ⟨h, h2, hv⟩ | ⟨h, h2, hv⟩ | ⟨h, h2, hv⟩ | ⟨h, h2, hv⟩ | ⟨h, h2, hv⟩ | ⟨h, hv⟩ <;>
  rcases getBaselineRisk_int_cases b with
    ⟨g, gv⟩ | ⟨g, g2, gv⟩ | ⟨g, g2, gv⟩ | ⟨g, g2, gv⟩ | ⟨g, g2, gv⟩ | ⟨g, g2, gv⟩ | ⟨g, gv⟩ <;>
  rw [hv, gv] <;> first | (norm_num; done) | (exfalso; omega)

lemma getBaselineRisk_bounds (q : ℚ) :
    3 ≤ getBaselineRisk q ∧ getBaselineRisk q ≤ 65 := by
  unfold getBaselineRisk
  split_ifs <;> norm_num

lemma recommendOf_eq_true_iff (g : Option ℚ) :
    recommendOf g = true ↔ ∃ gv, g = some gv ∧ (3 : ℚ)/10 < gv := by
  cases g with
  | none => simp [recommendOf]
  | some x => simp [recommendOf]

lemma calculateRisk_below_inv (input : AssessmentInput) (pa : ℤ) (b r adj : ℚ)
    (t : BloodTest)
    (h : calculateRisk input = RiskResult.belowThreshold pa b r adj t) :
    ∃ p a, input.clinicianProbabilityPercent = some p ∧ input.patientAge = some a ∧
      findTest input.selectedTestName = some t ∧
      adjustedRiskOf p a * 100 < t.threshold ∧
      pa = truncQ a ∧ b = getBaselineRisk ((truncQ a : ℤ) : ℚ) / 100 ∧
      r = p / 100 ∧ adj = adjustedRiskOf p a := by
  obtain ⟨cp, ag, nm⟩ := input
  cases cp with
  | none =>
    rw [calculateRisk_none_left] at h
    exact absurd h (by simp)
  | some p =>
    cases ag with
    | none =>
      rw [calculateRisk_none_right] at h
      exact absurd h (by simp)
    | some a =>
      by_cases hnm : nm = ""
      · subst hnm
        rw [calculateRisk_noTest] at h
        exact absurd h (by simp)
      · rcases hf : findTest nm with _ | t2
        · rw [calculateRisk_notFound p a nm hnm hf] at h
          exact absurd h (by simp)
        · by_cases hth : adjustedRiskOf p a * 100 < t2.threshold
          · rw [calculateRisk_below p a nm t2 hnm hf hth] at h
            simp only [RiskResult.belowThreshold.injEq] at h
            obtain ⟨h1, h2, h3, h4, h5⟩ := h
            subst h1 h2 h3 h4 h5
            exact ⟨p, a, rfl, rfl, rfl, hth, rfl, rfl, rfl, rfl⟩
          · rw [calculateRisk_evaluated p a nm t2 hnm hf hth] at h
            exact absurd h (by simp)

lemma calculateRisk_evaluated_inv (input : AssessmentInput) (pa : ℤ) (b r adj : ℚ)
    (t : BloodTest) (pp np g : Option ℚ) (rec : Bool)
    (h : calculateRisk input = RiskResult.evaluated pa b r adj t pp np g rec) :
    ∃ p a, input.clinicianProbabilityPercent = some p ∧ input.patientAge = some a ∧
      findTest input.selectedTestName = some t ∧
      ¬ adjustedRiskOf p a * 100 < t.threshold ∧
      pa = truncQ a ∧ b = getBaselineRisk ((truncQ a : ℤ) : ℚ) / 100 ∧
      r = p / 100 ∧ adj = adjustedRiskOf p a ∧
      pp = calculatePostTestProbability (adjustedRiskOf p a) t.positiveLR ∧
      np = calculatePostTestProbability (adjustedRiskOf p a) t.negativeLR ∧
      g = gapOf pp np ∧ rec = recommendOf g := by
  obtain ⟨cp, ag, nm⟩ := input
  cases cp with
  | none =>
    rw [calculateRisk_none_left] at h
    exact absurd h (by simp)
  | some p =>
    cases ag with
    | none =>
      rw [calculateRisk_none_right] at h
      exact absurd h (by simp)
    | some a =>
      by_cases hnm : nm = ""
      · subst hnm
        rw [calculateRisk_noTest] at h
        exact absurd h (by simp)
      · rcases hf : findTest nm with _ | t2
        · rw [calculateRisk_notFound p a nm hnm hf] at h
          exact absurd h (by simp)
        · by_cases hth : adjustedRiskOf p a * 100 < t2.threshold
          · rw [calculateRisk_below p a nm t2 hnm hf hth] at h
            exact absurd h (by simp)
          · rw [calculateRisk_evaluated p a nm t2 hnm hf hth] at h
            simp only [RiskResult.evaluated.injEq] at h
            obtain ⟨h1, h2, h3, h4, h5, h6, h7, h8, h9⟩ := h
            subst h1 h2 h3 h4 h5 h6 h7 h8 h9
            exact ⟨p, a, rfl, rfl, rfl, hth, rfl, rfl, rfl, rfl, rfl, rfl, rfl, rfl⟩

lemma calculateRisk_found_ne_error (p a : ℚ) (nm : String) (t : BloodTest)
    (hfind : findTest nm = some t) (msg : String) :
    ¬ calculateRisk ⟨some p, some a, nm⟩ = RiskResult.error msg := by
  have hnm : ¬ nm = "" := findTest_ne_empty nm t hfind
  by_cases hth : adjustedRiskOf p a * 100 < t.threshold
  · rw [calculateRisk_below p a nm t hnm hfind hth]
    simp
  · rw [calculateRisk_evaluated p a nm t hnm hfind hth]
    simp

/-- C1: for every input that reaches the post-test computation, calculateRisk
returns a recommended result if and only if the decimal probability gap is
strictly greater than 0.3 (30 percentage points); a gap of exactly 0.3
yields a non-recommended result. -/
theorem claim1_recommended_iff_gap_gt_30 (input : AssessmentInput) (pa : ℤ)
    (b r adj : ℚ) (t : BloodTest) (pp np g : Option ℚ) (rec : Bool)
    (h : calculateRisk input = RiskResult.evaluated pa b r adj t pp np g rec) :
    (rec = true ↔ ∃ gv, g = some gv ∧ (3 : ℚ)/10 < gv) ∧
    (g = some ((3 : ℚ)/10) → rec = false) := by
  obtain ⟨p, a, -, -, -, -, -, -, -, -, -, -, hg, hrec⟩ :=
    calculateRisk_evaluated_inv input pa b r adj t pp np g rec h
  constructor
  · rw [hrec]
    exact recommendOf_eq_true_iff g
  · intro h30
    rw [hrec, h30]
    simp [recommendOf]

/-- Witness for C1 at the pTau 217 example input, where the gap 4420/7519
exceeds 0.3 and the result is recommended. -/
theorem claim1_witness :
    ((true = true ↔ ∃ gv, (some ((4420 : ℚ)/7519) : Option ℚ) = some gv ∧
        (3 : ℚ)/10 < gv) ∧
     ((some ((4420 : ℚ)/7519) : Option ℚ) = some ((3 : ℚ)/10) → true = false)) :=
  claim1_recommended_iff_gap_gt_30
    ⟨some 50, some 70, "Phosphorylated Tau 217 (pTau 217)"⟩
    70 (3/20) (1/2) (1/2) pTau217Test (some (93/103)) (some (23/73))
    (some (4420/7519)) true calcRisk_pTau_50_70

/-- C2: with both numbers parsed and the selected test found in the catalog,
calculateRisk returns the below-threshold short-circuit result (which carries
only the age, baseline, input and adjusted probabilities and no post-test
figures) exactly when the adjusted pre-test probability is strictly below the
threshold; at clinician probability 5, age 50 and the Amyloid PET Scan
(threshold 5) the adjusted probability equals the threshold, the post-test
computation runs, and the gap decides the recommendation. -/
theorem claim2_short_circuit_iff_below_threshold (p a : ℚ) (nm : String)
    (t : BloodTest) (hfind : findTest nm = some t) :
    ((∃ pa b r adj t2, calculateRisk ⟨some p, some a, nm⟩ =
        RiskResult.belowThreshold pa b r adj t2) ↔
      adjustedRiskOf p a * 100 < t.threshold) ∧
    calculateRisk ⟨some 5, some 50, "Amyloid PET Scan"⟩ =
      RiskResult.evaluated 50 (3/100) (1/20) (1/20) amyloidTest
        (some (12/31)) (some (1/96)) (some (1121/2976)) true ∧
    recommendOf (some ((1121 : ℚ)/2976)) = true := by
  refine ⟨⟨?_, ?_⟩, calcRisk_amyloid_5_50, ?_⟩
  · rintro ⟨pa, b, r, adj, t2, hres⟩
    obtain ⟨p2, a2, hp2, ha2, hf2, hth2, -, -, -, -⟩ :=
      calculateRisk_below_inv _ pa b r adj t2 hres
    obtain rfl := Option.some.inj hp2
    obtain rfl := Option.some.inj ha2
    rw [hfind] at hf2
    obtain rfl := Option.some.inj hf2
    exact hth2
  · intro hth
    have hnm := findTest_ne_empty nm t hfind
    exact ⟨truncQ a, _, _, _, t, calculateRisk_below p a nm t hnm hfind hth⟩
  · simp only [recommendOf]
    norm_num

/-- Witness for C2 at the spec example: clinician probability 0, age 40,
Neurofilament Light (threshold 20), where the adjusted probability 3 percent
is below the threshold and the short-circuit fires. -/
theorem claim2_witness :
    ((∃ pa b r adj t2, calculateRisk ⟨some 0, some 40, "Neurofilament Light (NfL)"⟩ =
        RiskResult.belowThreshold pa b r adj t2) ↔
      adjustedRiskOf 0 40 * 100 <
        (⟨"Neurofilament Light (NfL)", 5/2, 1/2, 20⟩ : BloodTest).threshold) ∧
    calculateRisk ⟨some 5, some 50, "Amyloid PET Scan"⟩ =
      RiskResult.evaluated 50 (3/100) (1/20) (1/20) amyloidTest
        (some (12/31)) (some (1/96)) (some (1121/2976)) true ∧
    recommendOf (some ((1121 : ℚ)/2976)) = true :=
  claim2_short_circuit_iff_below_threshold 0 40 "Neurofilament Light (NfL)"
    ⟨"Neurofilament Light (NfL)", 5/2, 1/2, 20⟩ findTest_nfl

/-- C3: the baseline risk table is monotonically non-decreasing over integer
ages, with the stated point values at 59, 60, 85 and 86; the function is
total (every rational age, including negative ones, yields a value) and any
age matching no earlier band falls through to 65. -/
theorem claim3_baseline_monotone_and_bands :
    (∀ a b : ℤ, a ≤ b → getBaselineRisk (a : ℚ) ≤ getBaselineRisk (b : ℚ)) ∧
    getBaselineRisk 59 = 3 ∧ getBaselineRisk 60 = 10 ∧
    getBaselineRisk 85 = 50 ∧ getBaselineRisk 86 = 65 ∧
    (∀ q : ℚ, ¬ q < 60 → ¬ (60 ≤ q ∧ q ≤ 65) → ¬ (66 ≤ q ∧ q ≤ 70) →
      ¬ (71 ≤ q ∧ q ≤ 75) → ¬ (76 ≤ q ∧ q ≤ 80) → ¬ (81 ≤ q ∧ q ≤ 85) →
      getBaselineRisk q = 65) := by
  refine ⟨getBaselineRisk_mono_int, ?_, ?_, ?_, ?_, ?_⟩
  · norm_num [getBaselineRisk]
  · norm_num [getBaselineRisk]
  · norm_num [getBaselineRisk]
  · norm_num [getBaselineRisk]
  · intro q h1 h2 h3 h4 h5 h6
    unfold getBaselineRisk
    rw [if_neg h1, if_neg h2, if_neg h3, if_neg h4, if_neg h5, if_neg h6]

/-- Witness for C3: monotonicity applied at ages 59 and 86, and the
fall-through applied at age 200. -/
theorem claim3_witness :
    getBaselineRisk ((59 : ℤ) : ℚ) ≤ getBaselineRisk ((86 : ℤ) : ℚ) ∧
    getBaselineRisk 200 = 65 :=
  ⟨claim3_baseline_monotone_and_bands.1 59 86 (by norm_num),
   claim3_baseline_monotone_and_bands.2.2.2.2.2 200 (by norm_num) (by norm_num)
     (by norm_num) (by norm_num) (by norm_num) (by norm_num)⟩

/-- C4: the error precedence of calculateRisk: a failed numeric parse of
either field yields exactly the invalid-numbers message regardless of the
other fields; otherwise an empty test name yields exactly the select-a-test
message; only then can the catalog-lookup error occur; and the three
messages are exactly the strings of the source. -/
theorem claim4_error_precedence :
    (∀ input : AssessmentInput, input.clinicianProbabilityPercent = none →
      calculateRisk input = RiskResult.error invalidNumbersMessage) ∧
    (∀ input : AssessmentInput, input.patientAge = none →
      calculateRisk input = RiskResult.error invalidNumbersMessage) ∧
    (∀ p a : ℚ, calculateRisk ⟨some p, some a, ""⟩ =
      RiskResult.error noTestMessage) ∧
    (∀ (p a : ℚ) (nm : String), ¬ nm = "" → findTest nm = none →
      calculateRisk ⟨some p, some a, nm⟩ = RiskResult.error testNotFoundMessage) ∧
    invalidNumbersMessage = "Please enter valid numbers for both fields." ∧
    noTestMessage = "Please select a dementia test to proceed." ∧
    testNotFoundMessage = "Error: Selected test not found." := by
  refine ⟨?_, ?_, calculateRisk_noTest, calculateRisk_notFound, rfl, rfl, rfl⟩
  · intro input hcp
    obtain ⟨cp, ag, nm⟩ := input
    cases cp with
    | none => exact calculateRisk_none_left ag nm
    | some p => exact absurd hcp (by simp)
  · intro input hag
    obtain ⟨cp, ag, nm⟩ := input
    cases ag with
    | none => exact calculateRisk_none_right cp nm
    | some a => exact absurd hag (by simp)

/-- Witness for C4: each error branch exercised at a concrete input. -/
theorem claim4_witness :
    calculateRisk ⟨none, some 50, "Amyloid PET Scan"⟩ =
      RiskResult.error invalidNumbersMessage ∧
    calculateRisk ⟨some 50, none, "Amyloid PET Scan"⟩ =
      RiskResult.error invalidNumbersMessage ∧
    calculateRisk ⟨some 50, some 50, ""⟩ = RiskResult.error noTestMessage ∧
    calculateRisk ⟨some 50, some 50, "Unknown Test"⟩ =
      RiskResult.error testNotFoundMessage :=
  ⟨claim4_error_precedence.1 _ rfl,
   claim4_error_precedence.2.1 _ rfl,
   claim4_error_precedence.2.2.1 50 50,
   claim4_error_precedence.2.2.2.1 50 50 "Unknown Test" (by simp)
     (by simp [findTest, BLOOD_TESTS, List.find?])⟩

/-- C5: on the domain of the spec (pre-test probability strictly between 0
and 1, likelihood ratio non-negative) the post-test computation equals the
odds-transform composition and its value lies in the interval from 0
inclusive to 1 exclusive. -/
theorem claim5_postTest_closed_form_and_range (p lr : ℚ) (hp0 : 0 < p)
    (hp1 : p < 1) (hlr : 0 ≤ lr) :
    calculatePostTestProbability p lr =
      some ((p / (1 - p) * lr) / (1 + p / (1 - p) * lr)) ∧
    ∀ res, calculatePostTestProbability p lr = some res → 0 ≤ res ∧ res < 1 := by
  have hpos : (0 : ℚ) < 1 - p := by linarith
  have hodds : 0 ≤ p / (1 - p) := div_nonneg hp0.le hpos.le
  have hpost : 0 ≤ p / (1 - p) * lr := mul_nonneg hodds hlr
  have hden : (0 : ℚ) < 1 + p / (1 - p) * lr := by linarith
  have heq : calculatePostTestProbability p lr =
      some ((p / (1 - p) * lr) / (1 + p / (1 - p) * lr)) := by
    unfold calculatePostTestProbability
    simp [jsDiv, hpos.ne', hden.ne']
  refine ⟨heq, ?_⟩
  intro res hres
  rw [heq] at hres
  obtain rfl := Option.some.inj hres
  constructor
  · exact div_nonneg hpost hden.le
  · rw [div_lt_one hden]
    linarith

/-- Witness for C5 at pre-test probability one half and likelihood ratio 2. -/
theorem claim5_witness :
    calculatePostTestProbability (1/2) 2 =
      some (((1 : ℚ)/2 / (1 - 1/2) * 2) / (1 + (1 : ℚ)/2 / (1 - 1/2) * 2)) ∧
    ∀ res, calculatePostTestProbability (1/2) 2 = some res → 0 ≤ res ∧ res < 1 :=
  claim5_postTest_closed_form_and_range (1/2) 2 (by norm_num) (by norm_num)
    (by norm_num)

/-- C6: the odds conversion divides by zero when the pre-test probability is
exactly 1, so the post-test computation yields no real value, and
calculateRisk does not guard this: a clinician probability of exactly 100
reaches the odds transform and produces a non-error result with undefined
post-test figures. -/
theorem claim6_probability_one_reaches_transform_unchecked :
    (∀ lr : ℚ, calculatePostTestProbability 1 lr = none) ∧
    calculateRisk ⟨some 100, some 50, "Amyloid PET Scan"⟩ =
      RiskResult.evaluated 50 (3/100) 1 1 amyloidTest none none none false := by
  refine ⟨?_, calcRisk_amyloid_100_50⟩
  intro lr
  unfold calculatePostTestProbability
  norm_num [jsDiv]

/-- Witness for C6 at likelihood ratio 5. -/
theorem claim6_witness : calculatePostTestProbability 1 5 = none :=
  claim6_probability_one_reaches_transform_unchecked.1 5

/-- C7 counterexample: at clinician probability 100 the adjusted pre-test
probability handed to the odds transform is exactly 1, which does not lie
strictly between 0 and 1, refuting the claimed invariant. -/
theorem claim7_counterexample :
    calculateRisk ⟨some 100, some 50, "Amyloid PET Scan"⟩ =
      RiskResult.evaluated 50 (3/100) 1 1 amyloidTest none none none false ∧
    ¬ ((0 : ℚ) < 1 ∧ (1 : ℚ) < 1) :=
  ⟨calcRisk_amyloid_100_50, by norm_num⟩

/-- C7 (amended): whenever the parsed clinician probability is strictly
below 100 percent, the adjusted pre-test probability handed to the odds
transform lies strictly between 0 and 1 (lower bound from the baseline risk
of at least 3 percent, upper bound from the clinician probability). -/
theorem claim7_amended_adjusted_in_open_unit_interval (input : AssessmentInput)
    (p : ℚ) (pa : ℤ) (b r adj : ℚ) (t : BloodTest) (pp np g : Option ℚ)
    (rec : Bool) (hp : input.clinicianProbabilityPercent = some p)
    (hp100 : p < 100)
    (h : calculateRisk input = RiskResult.evaluated pa b r adj t pp np g rec) :
    0 < adj ∧ adj < 1 := by
  obtain ⟨p2, a2, hp2, -, -, -, -, -, -, hadj, -, -, -, -⟩ :=
    calculateRisk_evaluated_inv input pa b r adj t pp np g rec h
  rw [hp] at hp2
  obtain rfl := Option.some.inj hp2
  subst hadj
  have hb := getBaselineRisk_bounds ((truncQ a2 : ℤ) : ℚ)
  unfold adjustedRiskOf
  constructor
  · exact lt_of_lt_of_le (by linarith [hb.1] : (0 : ℚ) <
      getBaselineRisk ((truncQ a2 : ℤ) : ℚ) / 100) (le_max_right _ _)
  · exact max_lt (by linarith) (by linarith [hb.2])

/-- Witness for C7 (amended) at the pTau 217 example input. -/
theorem claim7_amended_witness : 0 < (1 : ℚ)/2 ∧ (1 : ℚ)/2 < 1 :=
  claim7_amended_adjusted_in_open_unit_interval
    ⟨some 50, some 70, "Phosphorylated Tau 217 (pTau 217)"⟩ 50 70 (3/20) (1/2)
    (1/2) pTau217Test (some (93/103)) (some (23/73)) (some (4420/7519)) true
    rfl (by norm_num) calcRisk_pTau_50_70

/-- C8: the worked pTau 217 example: clinician probability 50, age 70,
adjusted probability one half, pre-test odds 1, post-positive probability
93/103 (formatted 90.3 percent), post-negative probability 23/73 (formatted
31.5 percent), gap 4420/7519 (formatted 58.8 percent) exceeding 0.3, and a
recommended result. -/
theorem claim8_pTau_worked_example :
    calculateRisk ⟨some 50, some 70, "Phosphorylated Tau 217 (pTau 217)"⟩ =
      RiskResult.evaluated 70 (3/20) (1/2) (1/2) pTau217Test
        (some (93/103)) (some (23/73)) (some (4420/7519)) true ∧
    adjustedRiskOf 50 70 = 1/2 ∧
    ((1 : ℚ)/2) / (1 - 1/2) = 1 ∧
    formatPercentage (93/103) = 903/10 ∧
    formatPercentage (23/73) = 315/10 ∧
    formatPercentage (4420/7519) = 588/10 ∧
    (3 : ℚ)/10 < 4420/7519 := by
  refine ⟨calcRisk_pTau_50_70, ?_, by norm_num, ?_, ?_, ?_, by norm_num⟩
  · norm_num [adjustedRiskOf, truncQ, getBaselineRisk]
  · norm_num [formatPercentage, round_eq]
  · norm_num [formatPercentage, round_eq]
  · norm_num [formatPercentage, round_eq]

/-- C9: calculateRisk performs no range validation on the clinician
probability: with any parsed probability, a parsed age and a catalog test
it never returns an error result; at probability 150 the pre-test odds are
negative and post-test figures are still produced. -/
theorem claim9_no_probability_range_validation :
    (∀ (p a : ℚ) (nm : String) (t : BloodTest), findTest nm = some t →
      ∀ msg, ¬ calculateRisk ⟨some p, some a, nm⟩ = RiskResult.error msg) ∧
    calculateRisk ⟨some 150, some 50, "Amyloid PET Scan"⟩ =
      RiskResult.evaluated 50 (3/100) (3/2) (3/2) amyloidTest
        (some (36/35)) (some (-(3/2))) (some (177/70)) true ∧
    ((3 : ℚ)/2) / (1 - 3/2) = -3 ∧ ((3 : ℚ)/2) / (1 - 3/2) < 0 :=
  ⟨fun p a nm t hfind msg => calculateRisk_found_ne_error p a nm t hfind msg,
   calcRisk_amyloid_150_50, by norm_num, by norm_num⟩

/-- Witness for C9: at probability 150 the catalog lookup still succeeds and
no error is produced. -/
theorem claim9_witness :
    ¬ calculateRisk ⟨some 150, some 50, "Amyloid PET Scan"⟩ =
      RiskResult.error testNotFoundMessage :=
  claim9_no_probability_range_validation.1 150 50 "Amyloid PET Scan"
    amyloidTest findTest_amyloid testNotFoundMessage

/-- C10: calculateRisk truncates the age input to an integer before the
baseline lookup: age 65.9 truncates to 65 and yields baseline 10 percent;
the non-integer fall-through of getBaselineRisk (for example at 65.5, which
yields 65) is unreachable through calculateRisk, because every result's
baseline is the table value at the truncated integer age, and on integer
ages the fall-through value 65 occurs only past age 85. -/
theorem claim10_age_truncation :
    truncQ (659/10) = 65 ∧
    calculateRisk ⟨some 50, some (659/10), "Amyloid PET Scan"⟩ =
      RiskResult.evaluated 65 (1/10) (1/2) (1/2) amyloidTest
        (some (12/13)) (some (1/6)) (some (59/78)) true ∧
    getBaselineRisk (131/2) = 65 ∧
    (∀ a : ℤ, getBaselineRisk (a : ℚ) = 65 → 85 < a) ∧
    (∀ (input : AssessmentInput) (pa : ℤ) (b r adj : ℚ) (t : BloodTest)
      (pp np g : Option ℚ) (rec : Bool),
      calculateRisk input = RiskResult.evaluated pa b r adj t pp np g rec →
      b = getBaselineRisk (pa : ℚ) / 100) ∧
    (∀ (input : AssessmentInput) (pa : ℤ) (b r adj : ℚ) (t : BloodTest),
      calculateRisk input = RiskResult.belowThreshold pa b r adj t →
      b = getBaselineRisk (pa : ℚ) / 100) := by
  refine ⟨by norm_num [truncQ], calcRisk_amyloid_50_659, by norm_num [getBaselineRisk],
    ?_, ?_, ?_⟩
  · intro a h
    rcases getBaselineRisk_int_cases a with
      ⟨hb, hv⟩ | ⟨hb, hb2, hv⟩ | ⟨hb, hb2, hv⟩ | ⟨hb, hb2, hv⟩ |
      ⟨hb, hb2, hv⟩ | ⟨hb, hb2, hv⟩ | ⟨hb, hv⟩ <;>
      rw [hv] at h <;> first | (exfalso; norm_num at h; done) | omega
  · intro input pa b r adj t pp np g rec h
    obtain ⟨p, a, -, -, -, -, hpa, hb, -, -, -, -, -, -⟩ :=
      calculateRisk_evaluated_inv input pa b r adj t pp np g rec h
    rw [hpa]
    exact hb
  · intro input pa b r adj t h
    obtain ⟨p, a, -, -, -, -, hpa, hb, -, -⟩ :=
      calculateRisk_below_inv input pa b r adj t h
    rw [hpa]
    exact hb

/-- Witness for C10: the integer fall-through bound applied at age 100, and
the baseline-at-integer-age fact applied at the truncated 65.9 input. -/
theorem claim10_witness :
    (85 : ℤ) < 100 ∧ (1 : ℚ)/10 = getBaselineRisk ((65 : ℤ) : ℚ) / 100 :=
  ⟨claim10_age_truncation.2.2.2.1 100 (by norm_num [getBaselineRisk]),
   claim10_age_truncation.2.2.2.2.1 ⟨some 50, some (659/10), "Amyloid PET Scan"⟩
     65 (1/10) (1/2) (1/2) amyloidTest (some (12/13)) (some (1/6)) (some (59/78))
     true calcRisk_amyloid_50_659⟩
